import Mathlib

/-!
Shallow embedding of `containerd/handle.go` from nomad-driver-containerd.

The file models the task handle's in-memory state (`taskHandle`), the
containerd runtime client it drives (as an environment of per-call
responses), and each operation of the handle (`TaskStatus`, `IsRunning`,
`run`, `shutdown`, `cleanup`, `stats`, `signal`) as a pure function that
returns the updated handle, the ordered trace of runtime calls it issued,
and its result.  Go `error` values are `Option E` (with `none` standing
for the `nil` error); Go's `(value, error)` pairs become `Except E value`;
Go durations and `time.Time` values are nanosecond counts as `Nat`
(`time.Time`'s zero value is `0`).  A Go function that can panic returns
a `GoOutcome`.
-/

namespace NomadContainerd

/-- `drivers.TaskState` of the nomad plugin interface (the states this
driver uses). -/
inductive TaskState where
  | Pending
  | Running
  | Exited
  | Unknown
deriving DecidableEq

/-- containerd process status (`containerd.ProcessStatus`); `shutdown`
only compares against `containerd.Running`. -/
inductive ProcStatus where
  | Created
  | Running
  | Stopped
  | Paused
  | Pausing
  | Unknown
deriving DecidableEq

/-- `drivers.ExitResult`: populated when the task's terminal status is
known. -/
structure ExitResult where
  ExitCode : Int
  Signal : Int
  OOMKilled : Bool
deriving DecidableEq

/-- The identifiers copied from `drivers.TaskConfig` that
`TaskStatus` reports. -/
structure TaskConfig where
  ID : String
  Name : String
deriving DecidableEq

/-- The mutable in-memory fields of `taskHandle` (handle.go lines 18-31).
The `container` and `task` capability handles are modelled by the
`RuntimeEnv` passed to each operation; the logger has no control-flow
effect. -/
structure Handle where
  taskConfig : TaskConfig
  procState : TaskState
  startedAt : Nat
  completedAt : Nat
  exitResult : Option ExitResult
  containerName : String
deriving DecidableEq

/-- `drivers.TaskStatus`, the snapshot returned by `TaskStatus()`. -/
structure DriversTaskStatus where
  ID : String
  Name : String
  State : TaskState
  StartedAt : Nat
  CompletedAt : Nat
  ExitResult : Option ExitResult
  DriverAttributes : List (String × String)
deriving DecidableEq

/-- The fixed key under which the container name is reported. -/
def containerNameKey : String := "containerName"

/-- `taskHandle.TaskStatus` (handle.go lines 33-48): a read-only snapshot
of the in-memory fields. -/
def Handle.TaskStatus (h : Handle) : DriversTaskStatus :=
  { ID := h.taskConfig.ID
    Name := h.taskConfig.Name
    State := h.procState
    StartedAt := h.startedAt
    CompletedAt := h.completedAt
    ExitResult := h.exitResult
    DriverAttributes := [(containerNameKey, h.containerName)] }

/-- `taskHandle.IsRunning` (handle.go lines 50-54). -/
def Handle.IsRunning (h : Handle) : Bool :=
  match h.procState with
  | TaskState.Running => true
  | _ => false

/-- One observable external call issued by an operation.  `sleepEv`
records a `time.Sleep` with its duration in nanoseconds;
`containerDeleteEv` records whether `WithSnapshotCleanup` was passed;
`logInfoEv` records the diagnostic log call in `shutdown`. -/
inductive Event where
  | killEv (sig : Int)
  | statusEv
  | startEv
  | taskDeleteEv
  | containerDeleteEv (snapshotCleanup : Bool)
  | sleepEv (durationNs : Nat)
  | logInfoEv
deriving DecidableEq

/-- The containerd client's behaviour, one response per call the handle
can make.  `taskKill` is keyed by the delivered signal number. -/
structure RuntimeEnv (E : Type) where
  taskKill : Int → Option E
  taskStatus : Except E ProcStatus
  taskStart : Option E
  taskDelete : Except E Unit
  containerDelete : Option E

/-- Go nanoseconds in one second (`time.Second`). -/
def secondNs : Nat := 1000000000

/-- The fixed startup delay in `run`: `time.Sleep(5 * time.Second)`. -/
def graceNs : Nat := 5 * secondNs

/-- `syscall.SIGKILL`. -/
def SIGKILL : Int := 9

/-- `syscall.SIGTERM`. -/
def SIGTERM : Int := 15

/-- `taskHandle.run` (handle.go lines 56-64): sleep for the fixed grace
period, then issue `h.task.Start(ctx)`.  The start call's error is
discarded by the source (`h.task.Start(ctxContainerd)` with no use of its
return value) and `run` itself returns nothing, so the output is the
handle (unchanged: no field is assigned) and a timestamped trace; `t0` is
the time at which `run` is entered. -/
def run {E : Type} (h : Handle) (_env : RuntimeEnv E) (t0 : Nat) :
    Handle × List (Nat × Event) :=
  (h, [(t0, Event.sleepEv graceNs), (t0 + graceNs, Event.startEv)])

/-- `taskHandle.shutdown` (handle.go lines 66-87): kill with the caller's
signal; on error return it; else sleep for `timeout`, query the status;
on error return it; if the status is not `Running`, log and return `nil`;
otherwise kill with `SIGKILL` and return that call's result. -/
def shutdown {E : Type} (h : Handle) (env : RuntimeEnv E)
    (timeout : Nat) (sig : Int) : Handle × List Event × Option E :=
  match env.taskKill sig with
  | some e => (h, [Event.killEv sig], some e)
  | none =>
    match env.taskStatus with
    | Except.error e =>
        (h, [Event.killEv sig, Event.sleepEv timeout, Event.statusEv], some e)
    | Except.ok st =>
        if st = ProcStatus.Running then
          (h, [Event.killEv sig, Event.sleepEv timeout, Event.statusEv,
               Event.killEv SIGKILL],
           env.taskKill SIGKILL)
        else
          (h, [Event.killEv sig, Event.sleepEv timeout, Event.statusEv,
               Event.logInfoEv], none)

/-- `taskHandle.cleanup` (handle.go lines 89-97): delete the task
(discarding the returned exit status); on error return it; else delete
the container with `WithSnapshotCleanup`; on error return it; else
return `nil`. -/
def cleanup {E : Type} (h : Handle) (env : RuntimeEnv E) :
    Handle × List Event × Option E :=
  match env.taskDelete with
  | Except.error e => (h, [Event.taskDeleteEv], some e)
  | Except.ok _ =>
    match env.containerDelete with
    | some e =>
        (h, [Event.taskDeleteEv, Event.containerDeleteEv true], some e)
    | none =>
        (h, [Event.taskDeleteEv, Event.containerDeleteEv true], none)

/-- A resource-usage sample (`drivers.TaskResourceUsage`); never produced
by this core. -/
structure TaskResourceUsage where
  timestampNs : Nat
deriving DecidableEq

/-- `taskHandle.stats` (handle.go lines 99-101): `return nil, nil`.  The
`nil` receive channel is modelled as `none` (a stream that never yields
an element). -/
def stats (h : Handle) (_intervalNs : Nat) :
    Handle × Option (List TaskResourceUsage) × Option String :=
  (h, none, none)

/-- The result of running a Go function body that may panic instead of
returning. -/
inductive GoOutcome (A : Type) where
  | ret (a : A)
  | panicked
deriving DecidableEq

/-- Whether a `GoOutcome` is a normal return. -/
def GoOutcome.isRet {A : Type} : GoOutcome A → Bool
  | GoOutcome.ret _ => true
  | GoOutcome.panicked => false

/-- An `os.Signal` value: its dynamic type is either `syscall.Signal`
(carrying the signal number) or some other implementation of the
`os.Signal` interface (tagged by a code). -/
inductive OsSignal where
  | sysSig (s : Int)
  | nonSys (tag : Nat)
deriving DecidableEq

/-- `taskHandle.signal` (handle.go lines 103-105):
`return h.task.Kill(ctxContainerd, sig.(syscall.Signal))`.  The
unchecked type assertion `sig.(syscall.Signal)` panics when the dynamic
type of `sig` is not `syscall.Signal`; only when it succeeds is the
runtime's `Kill` invoked. -/
def signal {E : Type} (h : Handle) (env : RuntimeEnv E) (sig : OsSignal) :
    Handle × List Event × GoOutcome (Option E) :=
  match sig with
  | OsSignal.sysSig s => (h, [Event.killEv s], GoOutcome.ret (env.taskKill s))
  | OsSignal.nonSys _ => (h, [], GoOutcome.panicked)

/-- Whether an event is the status query. -/
def isStatusEv : Event → Bool
  | Event.statusEv => true
  | _ => false

/-- The signal of a kill event, if any. -/
def killSigOf : Event → Option Int
  | Event.killEv s => some s
  | _ => none

/-- The signals of the kill calls issued strictly after the status query:
the forceful (escalation) kills of a shutdown trace. -/
def escalationKills (tr : List Event) : List Int :=
  ((tr.dropWhile (fun ev => !isStatusEv ev)).drop 1).filterMap killSigOf

/-- One invocation of an operation of the handle, with the runtime
behaviour and arguments it sees. -/
inductive Op (E : Type) where
  | opRun (env : RuntimeEnv E) (t0 : Nat)
  | opShutdown (env : RuntimeEnv E) (timeout : Nat) (sig : Int)
  | opCleanup (env : RuntimeEnv E)
  | opSignal (env : RuntimeEnv E) (sig : OsSignal)
  | opStats (intervalNs : Nat)
  | opTaskStatus
  | opIsRunning

/-- The handle after one operation (reads leave it untouched by type). -/
def applyOp {E : Type} (h : Handle) : Op E → Handle
  | Op.opRun env t0 => (run h env t0).1
  | Op.opShutdown env timeout sig => (shutdown h env timeout sig).1
  | Op.opCleanup env => (cleanup h env).1
  | Op.opSignal env sig => (signal h env sig).1
  | Op.opStats intervalNs => (stats h intervalNs).1
  | Op.opTaskStatus => h
  | Op.opIsRunning => h

/-- The handle after a sequence of operations. -/
def runOps {E : Type} (h : Handle) (ops : List (Op E)) : Handle :=
  ops.foldl applyOp h

/-- The invariant of the data model: an exited state implies a recorded
exit result and a non-zero completion time. -/
def Inv (h : Handle) : Prop :=
  h.procState = TaskState.Exited → h.exitResult ≠ none ∧ h.completedAt ≠ 0

theorem shutdown_fst {E : Type} (h : Handle) (env : RuntimeEnv E)
    (timeout : Nat) (sig : Int) : (shutdown h env timeout sig).1 = h := by
  unfold shutdown
  cases env.taskKill sig with
  | some e => rfl
  | none =>
    cases env.taskStatus with
    | error e => rfl
    | ok st => by_cases hr : st = ProcStatus.Running <;> simp [hr]

theorem cleanup_fst {E : Type} (h : Handle) (env : RuntimeEnv E) :
    (cleanup h env).1 = h := by
  unfold cleanup
  cases env.taskDelete with
  | error e => rfl
  | ok u => cases env.containerDelete with
    | none => rfl
    | some e => rfl

theorem applyOp_preserves_handle {E : Type} (h : Handle) (op : Op E) :
    applyOp h op = h := by
  cases op with
  | opRun env t0 => rfl
  | opShutdown env timeout sig => exact shutdown_fst h env timeout sig
  | opCleanup env => exact cleanup_fst h env
  | opSignal env sig => cases sig <;> rfl
  | opStats intervalNs => rfl
  | opTaskStatus => rfl
  | opIsRunning => rfl

theorem runOps_eq {E : Type} (h : Handle) (ops : List (Op E)) :
    runOps h ops = h := by
  induction ops generalizing h with
  | nil => rfl
  | cons op rest ih =>
    show runOps (applyOp h op) rest = h
    rw [applyOp_preserves_handle]
    exact ih h

/-- A concrete handle: task `task-1` named `redis`, freshly created. -/
def handle0 : Handle :=
  { taskConfig := { ID := "task-1", Name := "redis" }
    procState := TaskState.Pending
    startedAt := 0
    completedAt := 0
    exitResult := none
    containerName := "redis-container" }

/-- A fake runtime on which every call succeeds and the status query
reports `Running`.  Errors are numbered (`E := Nat`). -/
def envAllOk : RuntimeEnv Nat :=
  { taskKill := fun _ => none
    taskStatus := Except.ok ProcStatus.Running
    taskStart := none
    taskDelete := Except.ok ()
    containerDelete := none }

/-- As `envAllOk` but the status query reports `Stopped`. -/
def envStopped : RuntimeEnv Nat :=
  { envAllOk with taskStatus := Except.ok ProcStatus.Stopped }

/-- As `envAllOk` but every kill fails with error `3`. -/
def envKillFails : RuntimeEnv Nat :=
  { envAllOk with taskKill := fun _ => some 3 }

/-- As `envAllOk` but the status query fails with error `4`. -/
def envStatusFails : RuntimeEnv Nat :=
  { envAllOk with taskStatus := Except.error 4 }

/-- As `envAllOk` but the start call fails with error `7`. -/
def envStartFails : RuntimeEnv Nat :=
  { envAllOk with taskStart := some 7 }

/-- As `envAllOk` but task deletion fails with error `5`. -/
def envTaskDeleteFails : RuntimeEnv Nat :=
  { envAllOk with taskDelete := Except.error 5 }

/-- As `envAllOk` but container deletion fails with error `6`. -/
def envContainerDeleteFails : RuntimeEnv Nat :=
  { envAllOk with containerDelete := some 6 }

/-- C1: for every timeout and signal, if the initial signal delivery
succeeds and the post-wait status query succeeds, then: when the queried
status is `Running`, shutdown issues exactly one forceful kill — one
`Kill(SIGKILL)` call after the status query — and returns that kill
call's result; when the queried status is not `Running`, shutdown
returns success and issues no kill after the status query. -/
theorem shutdown_escalates_iff_running {E : Type} (h : Handle)
    (env : RuntimeEnv E) (timeout : Nat) (sig : Int) (st : ProcStatus)
    (hkill : env.taskKill sig = none)
    (hstatus : env.taskStatus = Except.ok st) :
    (st = ProcStatus.Running →
      shutdown h env timeout sig =
        (h, [Event.killEv sig, Event.sleepEv timeout, Event.statusEv,
             Event.killEv SIGKILL], env.taskKill SIGKILL) ∧
      escalationKills (shutdown h env timeout sig).2.1 = [SIGKILL]) ∧
    (st ≠ ProcStatus.Running →
      shutdown h env timeout sig =
        (h, [Event.killEv sig, Event.sleepEv timeout, Event.statusEv,
             Event.logInfoEv], none) ∧
      escalationKills (shutdown h env timeout sig).2.1 = []) := by
  constructor
  · intro hr
    subst hr
    have hs : shutdown h env timeout sig =
        (h, [Event.killEv sig, Event.sleepEv timeout, Event.statusEv,
             Event.killEv SIGKILL], env.taskKill SIGKILL) := by
      unfold shutdown
      rw [hkill, hstatus]
      simp
    refine ⟨hs, ?_⟩
    rw [hs]
    rfl
  · intro hr
    have hs : shutdown h env timeout sig =
        (h, [Event.killEv sig, Event.sleepEv timeout, Event.statusEv,
             Event.logInfoEv], none) := by
      unfold shutdown
      rw [hkill, hstatus]
      simp [hr]
    refine ⟨hs, ?_⟩
    rw [hs]
    rfl

/-- C1 witness: with the all-succeeding fake runtime reporting `Running`,
shutdown escalates with exactly one `SIGKILL` kill; with the fake
reporting `Stopped`, it returns success with no escalation kill. -/
theorem shutdown_escalates_iff_running_witness :
    (shutdown handle0 envAllOk graceNs SIGTERM =
       (handle0, [Event.killEv SIGTERM, Event.sleepEv graceNs,
                  Event.statusEv, Event.killEv SIGKILL], none) ∧
     escalationKills (shutdown handle0 envAllOk graceNs SIGTERM).2.1
       = [SIGKILL]) ∧
    (shutdown handle0 envStopped graceNs SIGTERM =
       (handle0, [Event.killEv SIGTERM, Event.sleepEv graceNs,
                  Event.statusEv, Event.logInfoEv], none) ∧
     escalationKills (shutdown handle0 envStopped graceNs SIGTERM).2.1
       = []) :=
  ⟨(shutdown_escalates_iff_running handle0 envAllOk graceNs SIGTERM
      ProcStatus.Running rfl rfl).1 rfl,
   (shutdown_escalates_iff_running handle0 envStopped graceNs SIGTERM
      ProcStatus.Stopped rfl rfl).2 (by decide)⟩

/-- C2: cleanup attempts task deletion first; on task-deletion failure it
returns that error with container deletion never invoked; on
task-deletion success and container-deletion failure it returns the
container-deletion error; when both succeed it returns success.  The
returned traces show task deletion strictly preceding container
deletion. -/
theorem cleanup_order_and_errors {E : Type} (h : Handle)
    (env : RuntimeEnv E) :
    (∀ e : E, env.taskDelete = Except.error e →
       cleanup h env = (h, [Event.taskDeleteEv], some e)) ∧
    (∀ e : E, env.taskDelete = Except.ok () → env.containerDelete = some e →
       cleanup h env =
         (h, [Event.taskDeleteEv, Event.containerDeleteEv true], some e)) ∧
    (env.taskDelete = Except.ok () → env.containerDelete = none →
       cleanup h env =
         (h, [Event.taskDeleteEv, Event.containerDeleteEv true], none)) := by
  refine ⟨?_, ?_, ?_⟩
  · intro e he
    unfold cleanup
    rw [he]
  · intro e ht hc
    unfold cleanup
    rw [ht, hc]
  · intro ht hc
    unfold cleanup
    rw [ht, hc]

/-- C2 witness: the three cases of `cleanup_order_and_errors` at concrete
fake runtimes. -/
theorem cleanup_order_and_errors_witness :
    cleanup handle0 envTaskDeleteFails =
      (handle0, [Event.taskDeleteEv], some 5) ∧
    cleanup handle0 envContainerDeleteFails =
      (handle0, [Event.taskDeleteEv, Event.containerDeleteEv true], some 6) ∧
    cleanup handle0 envAllOk =
      (handle0, [Event.taskDeleteEv, Event.containerDeleteEv true], none) :=
  ⟨(cleanup_order_and_errors handle0 envTaskDeleteFails).1 5 rfl,
   (cleanup_order_and_errors handle0 envContainerDeleteFails).2.1 6 rfl rfl,
   (cleanup_order_and_errors handle0 envAllOk).2.2 rfl rfl⟩

/-- C3 counterexample: at the concrete unrepresentable signal
`OsSignal.nonSys 0` (an `os.Signal` whose dynamic type is not
`syscall.Signal`), `signal` does not return at all — the unchecked type
assertion `sig.(syscall.Signal)` in the source panics — so in particular
it does not return an error value; no runtime call is issued. -/
theorem signal_unrepresentable_cex :
    (signal handle0 envAllOk (OsSignal.nonSys 0)).2.2 = GoOutcome.panicked ∧
    GoOutcome.isRet (signal handle0 envAllOk (OsSignal.nonSys 0)).2.2
      = false ∧
    (signal handle0 envAllOk (OsSignal.nonSys 0)).2.1 = [] :=
  ⟨rfl, rfl, rfl⟩

/-- C3 amended: for every signal value that cannot be represented as the
runtime's signal type, `signal` panics (it aborts via the failed type
assertion rather than returning an error), and no runtime call (no Kill)
is invoked. -/
theorem signal_unrepresentable_panics {E : Type} (h : Handle)
    (env : RuntimeEnv E) (tag : Nat) :
    signal h env (OsSignal.nonSys tag) = (h, [], GoOutcome.panicked) := rfl

/-- C4 counterexample: `run`'s entire output is identical whether the
runtime's start call fails (error `7` in `envStartFails`) or succeeds
(`envAllOk`), so the start failure cannot propagate out of `run`; the
source discards `h.task.Start`'s error and `run` returns nothing. -/
theorem run_start_error_cex :
    envStartFails.taskStart = some 7 ∧
    envAllOk.taskStart = none ∧
    run handle0 envStartFails 0 = run handle0 envAllOk 0 :=
  ⟨rfl, rfl, rfl⟩

/-- C4 amended: for every execution of `run`, the start call's error is
discarded: `run` returns nothing and its output (unchanged handle plus
call trace) is the same for every runtime behaviour, so a start failure
never propagates to the lifecycle driver. -/
theorem run_discards_start_error {E : Type} (h : Handle)
    (env : RuntimeEnv E) (t0 : Nat) :
    run h env t0 =
      (h, [(t0, Event.sleepEv graceNs), (t0 + graceNs, Event.startEv)]) := rfl

/-- C5: for every timeout and signal, if the initial signal delivery
fails, shutdown returns that error unchanged and its trace is the single
kill call — no grace-period sleep, no status query, no forceful kill. -/
theorem shutdown_initial_kill_failure {E : Type} (h : Handle)
    (env : RuntimeEnv E) (timeout : Nat) (sig : Int) (e : E)
    (hkill : env.taskKill sig = some e) :
    shutdown h env timeout sig = (h, [Event.killEv sig], some e) := by
  unfold shutdown
  rw [hkill]

/-- C5 witness: the fake runtime whose kill fails with error `3`. -/
theorem shutdown_initial_kill_failure_witness :
    shutdown handle0 envKillFails graceNs SIGTERM =
      (handle0, [Event.killEv SIGTERM], some 3) :=
  shutdown_initial_kill_failure handle0 envKillFails graceNs SIGTERM 3 rfl

/-- C6: if the initial signal delivery succeeds but the post-wait status
query fails, shutdown returns the status-query error and the trace ends
at the status query — no forceful kill is delivered. -/
theorem shutdown_status_failure {E : Type} (h : Handle)
    (env : RuntimeEnv E) (timeout : Nat) (sig : Int) (e : E)
    (hkill : env.taskKill sig = none)
    (hstatus : env.taskStatus = Except.error e) :
    shutdown h env timeout sig =
      (h, [Event.killEv sig, Event.sleepEv timeout, Event.statusEv],
       some e) ∧
    escalationKills (shutdown h env timeout sig).2.1 = [] := by
  have hs : shutdown h env timeout sig =
      (h, [Event.killEv sig, Event.sleepEv timeout, Event.statusEv],
       some e) := by
    unfold shutdown
    rw [hkill, hstatus]
  refine ⟨hs, ?_⟩
  rw [hs]
  rfl

/-- C6 witness: the fake runtime whose status query fails with error
`4`. -/
theorem shutdown_status_failure_witness :
    shutdown handle0 envStatusFails graceNs SIGTERM =
      (handle0, [Event.killEv SIGTERM, Event.sleepEv graceNs,
                 Event.statusEv], some 4) ∧
    escalationKills (shutdown handle0 envStatusFails graceNs SIGTERM).2.1
      = [] :=
  shutdown_status_failure handle0 envStatusFails graceNs SIGTERM 4 rfl rfl

/-- C7: in every execution of `run`, exactly one start call appears in
the timestamped trace, and its timestamp is `t0 + graceNs` — the entry
time plus the full fixed startup grace period (5 seconds), so the start
call is never issued before that grace period has elapsed. -/
theorem run_start_after_grace {E : Type} (h : Handle) (env : RuntimeEnv E)
    (t0 : Nat) :
    (((run h env t0).2.filter (fun p => p.2 == Event.startEv)).map
        Prod.fst = [t0 + graceNs]) ∧
    ((run h env t0).2.filter (fun p => p.2 == Event.startEv)).length = 1 :=
  ⟨rfl, rfl⟩

/-- C8: the invariant `State = Exited → ExitResult ≠ none ∧
CompletedAt ≠ 0` (read through `TaskStatus`) holds in every handle state
reachable by the operations of this core from a state satisfying it, and
every single operation preserves it. -/
theorem handle_invariant_preserved {E : Type} (h : Handle)
    (ops : List (Op E)) (hInv : Inv h) :
    ((runOps h ops).TaskStatus.State = TaskState.Exited →
       (runOps h ops).TaskStatus.ExitResult ≠ none ∧
       (runOps h ops).TaskStatus.CompletedAt ≠ 0) ∧
    (∀ op : Op E, Inv (applyOp h op)) := by
  constructor
  · rw [runOps_eq]
    exact hInv
  · intro op
    rw [applyOp_preserves_handle]
    exact hInv

/-- A concrete sequence of operations for the invariant witness. -/
def opsList : List (Op Nat) :=
  [Op.opRun envAllOk 0, Op.opShutdown envAllOk graceNs SIGTERM,
   Op.opSignal envAllOk (OsSignal.sysSig SIGTERM), Op.opStats graceNs,
   Op.opTaskStatus, Op.opIsRunning, Op.opCleanup envAllOk]

/-- C8 witness: the freshly created handle satisfies the invariant, and
it is maintained across a concrete run of every operation. -/
theorem handle_invariant_preserved_witness :
    Inv handle0 ∧
    (((runOps handle0 opsList).TaskStatus.State = TaskState.Exited →
        (runOps handle0 opsList).TaskStatus.ExitResult ≠ none ∧
        (runOps handle0 opsList).TaskStatus.CompletedAt ≠ 0) ∧
     (∀ op : Op Nat, Inv (applyOp handle0 op))) :=
  ⟨by intro hx; exact absurd hx (by decide),
   handle_invariant_preserved handle0 opsList
     (by intro hx; exact absurd hx (by decide))⟩

/-- C9: neither `run` nor `shutdown` modifies any in-memory field of the
handle: the handle returned by each is the whole input record —
identifiers, state, timestamps, exit result and container name all
unchanged — for every runtime behaviour, timeout and signal. -/
theorem run_shutdown_frame {E : Type} (h : Handle) (env : RuntimeEnv E)
    (t0 timeout : Nat) (sig : Int) :
    (run h env t0).1 = h ∧ (shutdown h env timeout sig).1 = h :=
  ⟨rfl, shutdown_fst h env timeout sig⟩

/-- C10: for every interval, `stats` returns an absent stream (the `nil`
channel, which never yields data) and a `nil` error. -/
theorem stats_stub (h : Handle) (intervalNs : Nat) :
    stats h intervalNs = (h, none, none) := rfl

end NomadContainerd
